import Mathlib

/-!
# Snow Scraper — shallow embedding and verification

A shallow embedding of the display/touch/LED core of the `snowscraper`
repository (files `snowgui.py`, `snowfall_overlay.py`,
`calibrate_touchscreen.py`), together with theorems settling the frozen
claims about it.

Conventions used throughout:
* Python machine integers are unbounded, so they are embedded as `Int`.
* Python `int(x)` applied to a real quotient truncates toward zero; on an
  exact integer quotient `p / d` (`d > 0`) this is `Int.tdiv p d`, and on an
  exact rational it is `ratTrunc`.  Exact rational arithmetic (`ℚ`) stands in
  for IEEE doubles; at every input used by a theorem below the two agree.
* Python `//` is floor division, embedded as `Int.fdiv`.
* Code that may raise is embedded with `Option`/explicit outcome records.
-/

namespace SnowScraper

/-- Panel size: `ili9341(..., width=320, height=240)` in `init_display`, and
`_DummyDevice.width = 320`, `_DummyDevice.height = 240` (`snowgui.py`). -/
def deviceWidth : Int := 320

/-- Panel height, see `deviceWidth`. -/
def deviceHeight : Int := 240

/-- A finished raster frame, abstracted to an identifier: the presenter
claims are about control flow, not pixel contents. -/
abbrev Frame := Nat

/-- The global display handle (`snowgui.py`).  `hw` is a real `ili9341`
device whose `display(img)` call may raise (which frames make it raise is
the device's business, hence a function); `dummy` is `_DummyDevice`, whose
`display` body is `pass` and therefore can never raise. -/
inductive Device where
  | hw (writeFails : Frame → Bool)
  | dummy

/-- Whether `device.display(img)` returns normally. `_DummyDevice.display`
is a no-op and always succeeds. -/
def Device.displayOk : Device → Frame → Bool
  | .hw writeFails, img => !(writeFails img)
  | .dummy, _ => true

/-- Observable outcome of one `present` call: the global `device` afterwards,
whether `logger.exception` fired, and whether an exception escaped. -/
structure PresentOutcome where
  device : Device
  logged : Bool
  raised : Bool

/-- `present(img)` (`snowgui.py` lines 1523–1541), restricted to the guarded
device write: `try: device.display(img)`; on exception it logs, rebinds the
global `device` to `_DummyDevice()` and retries the write under a second
`try` whose handler is `pass`.  The dummy write is a no-op, so the retry
always succeeds and no exception escapes. -/
def present (dev : Device) (img : Frame) : PresentOutcome :=
  if dev.displayOk img then
    { device := dev, logged := false, raised := false }
  else
    { device := .dummy, logged := true, raised := false }

/-- A UI button (`Button.__init__`, `snowgui.py`).  `label` doubles as the
button's identity; `callbackRaises` says whether invoking its callback
raises. -/
structure Button where
  x1 : Int
  y1 : Int
  x2 : Int
  y2 : Int
  label : Nat
  callbackRaises : Bool
  visible : Bool
deriving DecidableEq

/-- `Button.contains` (`snowgui.py` lines 2585–2586):
`self.x1 <= x <= self.x2 and self.y1 <= y <= self.y2`. -/
def Button.contains (b : Button) (x y : Int) : Bool :=
  decide (b.x1 ≤ x ∧ x ≤ b.x2 ∧ b.y1 ≤ y ∧ y ≤ b.y2)

/-- Observable outcome of `Screen.handle_touch`: labels of the buttons whose
callbacks were invoked (in order), labels whose callbacks raised (each caught
and logged by `logger.exception`), and whether `handle_touch` itself raised. -/
structure TouchOutcome where
  invoked : List Nat
  loggedFailures : List Nat
  raised : Bool
deriving DecidableEq

/-- `Screen.handle_touch(x, y)` (`snowgui.py` lines 2640–2651): iterate over
`self.buttons`; for each button containing the point, call `btn.on_press()`
inside a `try` whose handler logs and falls through, so the loop continues
past a raising callback and the function never raises.  There is no `break`
after a hit. -/
def handle_touch : List Button → Int → Int → TouchOutcome
  | [], _, _ => { invoked := [], loggedFailures := [], raised := false }
  | b :: rest, x, y =>
    let tail := handle_touch rest x y
    if b.contains x y then
      { invoked := b.label :: tail.invoked
        loggedFailures :=
          (if b.callbackRaises then [b.label] else []) ++ tail.loggedFailures
        raised := false }
    else
      { invoked := tail.invoked
        loggedFailures := tail.loggedFailures
        raised := tail.raised }

/-- Calibration state (`TouchCalibrator.__init__`, `snowgui.py`). -/
structure TouchCalibrator where
  x_min : Int
  x_max : Int
  y_min : Int
  y_max : Int
deriving DecidableEq

/-- `TouchCalibrator.reset_defaults` / `__init__`: full-scale 12-bit range. -/
def resetDefaults : TouchCalibrator :=
  { x_min := 0, x_max := 4095, y_min := 0, y_max := 4095 }

/-- `dx = max(1, (self.x_max - self.x_min))` in `map_raw_to_screen`. -/
def TouchCalibrator.dx (c : TouchCalibrator) : Int :=
  max 1 (c.x_max - c.x_min)

/-- `dy = max(1, (self.y_max - self.y_min))` in `map_raw_to_screen`. -/
def TouchCalibrator.dy (c : TouchCalibrator) : Int :=
  max 1 (c.y_max - c.y_min)

/-- `TouchCalibrator.map_raw_to_screen(x, y)` (`snowgui.py` lines 2405–2413):
scale into panel space (`int(...)` truncates the exact quotient toward zero,
`Int.tdiv`), invert both axes, clamp to panel bounds. -/
def map_raw_to_screen (c : TouchCalibrator) (x y : Int) : Int × Int :=
  let sx := Int.tdiv ((x - c.x_min) * deviceWidth) c.dx
  let sy := Int.tdiv ((y - c.y_min) * deviceHeight) c.dy
  let sx := deviceWidth - 1 - sx
  let sy := deviceHeight - 1 - sy
  (max 0 (min (deviceWidth - 1) sx), max 0 (min (deviceHeight - 1) sy))

/-- What `load_safe` finds on disk: no file, an unreadable/unparsable file,
or a parsed record (the four integers after `data.get(key, default)` and
`int(...)` coercion). -/
inductive CalibFile where
  | missing
  | unreadable
  | parsed (x_min x_max y_min y_max : Int)

/-- `TouchCalibrator.load_safe` (`snowgui.py` lines 2435–2455) as a function
from the file contents to the resulting calibration state and return value:
missing or unreadable files and degenerate spans
(`x_max <= x_min or y_max <= y_min`) all end in `reset_defaults()` and
`False`; otherwise the parsed values are kept and `True` is returned. -/
def load_safe : CalibFile → TouchCalibrator × Bool
  | .missing => (resetDefaults, false)
  | .unreadable => (resetDefaults, false)
  | .parsed xmin xmax ymin ymax =>
    if xmax ≤ xmin ∨ ymax ≤ ymin then (resetDefaults, false)
    else ({ x_min := xmin, x_max := xmax, y_min := ymin, y_max := ymax }, true)

/-- Stand-in for the JSON text `json.dump` writes for a profile (a crash can
leave any proper prefix behind; only nonemptiness and injectivity of the
serialized form matter to the claims). -/
def serialize (c : TouchCalibrator) : List Int :=
  [c.x_min, c.x_max, c.y_min, c.y_max]

/-- The sequence of on-disk contents the calibration file passes through
during `TouchCalibrator.save_safe` (`snowgui.py` lines 2457–2475) — and
likewise `TwoPointCalibrator.run_and_save` (`calibrate_touchscreen.py`
lines 134–142, via `Path.write_text`): `open(CALIBRATION_FILE, "w")` first
truncates the target file in place, then the JSON body is written into it.
Each element is an observable on-disk state; a crash between steps leaves
that state behind.  No temporary file or rename is involved. -/
def save_states (old : List Int) (c : TouchCalibrator) : List (List Int) :=
  [old, [], serialize c]

/-!
## LED effect controller (`SnowLEDs`, `snowgui.py`)
-/

/-- An RGB triple. -/
abbrev RGB := Int × Int × Int

/-- Python `int(q)` on a rational: truncation toward zero
(`Int.tdiv` of numerator by denominator, the denominator being positive). -/
def ratTrunc (q : ℚ) : Int :=
  Int.tdiv q.num q.den

/-- `SnowLEDs._lerp_rgb(a, b, t)` (`snowgui.py` lines 910–915): clamp `t` to
`[0,1]`, interpolate each channel, truncate with `int(...)`. -/
def lerp_rgb (a b : RGB) (t : ℚ) : RGB :=
  let t := max 0 (min 1 t)
  (ratTrunc ((a.1 : ℚ) + ((b.1 : ℚ) - (a.1 : ℚ)) * t),
   ratTrunc ((a.2.1 : ℚ) + ((b.2.1 : ℚ) - (a.2.1 : ℚ)) * t),
   ratTrunc ((a.2.2 : ℚ) + ((b.2.2 : ℚ) - (a.2.2 : ℚ)) * t))

/-- `SnowLEDs._color_for_cm(cm)` (`snowgui.py` lines 888–908): clamp to
`[1,20]`, then four linear ramps between the anchor colors. -/
def color_for_cm (cm : Int) : RGB :=
  let light_blue : RGB := (168, 216, 255)
  let deep_blue : RGB := (0, 72, 255)
  let purple : RGB := (128, 0, 255)
  let dark_red : RGB := (139, 0, 0)
  let bright_red : RGB := (255, 0, 0)
  let cm := max 1 (min 20 cm)
  if cm ≤ 5 then lerp_rgb light_blue deep_blue (((cm : ℚ) - 1) / 4)
  else if cm ≤ 10 then lerp_rgb deep_blue purple (((cm : ℚ) - 5) / 5)
  else if cm ≤ 15 then lerp_rgb purple dark_red (((cm : ℚ) - 10) / 5)
  else lerp_rgb dark_red bright_red (((cm : ℚ) - 15) / 5)

/-- `SnowLEDs._breath_period_for_delta(delta)` (`snowgui.py` lines 837–840):
clamp delta to `[1,10]`, then `max(1.5, 8.0 - (delta - 1) * 0.73)`. -/
def breath_period_for_delta (delta : Int) : ℚ :=
  let d := max 1 (min 10 delta)
  max (3 / 2) (8 - ((d : ℚ) - 1) * (73 / 100))

/-- Observable LED state after one `set_snow_value` call: the stored raw
values, the base color, which workers are active, and the breathing
parameters (zero when breathing is off). -/
structure LEDState where
  current_cm : Int
  prev_cm : Int
  base_color : RGB
  sparkle : Bool
  breathing : Bool
  breath_delta : Int
  breath_period : ℚ
  painted_off : Bool
  steady : Bool
deriving DecidableEq

/-- `SnowLEDs.set_snow_value(cm_now, cm_prev)` (`snowgui.py` lines 721–765).
Raw (unclamped) values drive the sparkle threshold (`raw_now > 20`), the
off branch (`raw_now <= 0`), change detection (`raw_now != raw_prev`) and
the breathing delta; only the color mapping clamps to `[0,20]`.  Inputs are
the integers after `int(cm_now or 0)` / `int(cm_prev or 0)`. -/
def set_snow_value (cm_now cm_prev : Int) : LEDState :=
  let raw_now := cm_now
  let raw_prev := cm_prev
  let color_cm := max 0 (min 20 raw_now)
  let base : RGB := if 0 < raw_now then color_for_cm color_cm else (0, 0, 0)
  let sparkle := decide (20 < raw_now)
  if raw_now ≤ 0 then
    { current_cm := raw_now, prev_cm := raw_prev, base_color := base
      sparkle := sparkle, breathing := false
      breath_delta := 0, breath_period := 0
      painted_off := true, steady := false }
  else if raw_now ≠ raw_prev then
    { current_cm := raw_now, prev_cm := raw_prev, base_color := base
      sparkle := sparkle, breathing := true
      breath_delta := |raw_now - raw_prev|
      breath_period := breath_period_for_delta |raw_now - raw_prev|
      painted_off := false, steady := false }
  else
    { current_cm := raw_now, prev_cm := raw_prev, base_color := base
      sparkle := sparkle, breathing := false
      breath_delta := 0, breath_period := 0
      painted_off := false, steady := true }

/-!
## Snowfall overlay (`snowfall_overlay.py`)
-/

/-- `_DENSITY` table (`snowfall_overlay.py` line 35). -/
def DENSITY : List Int := [20, 35, 55, 75, 95, 115, 130, 145, 155, 165]

/-- `_SPEED` table (`snowfall_overlay.py` line 36); the decimal literals are
modelled exactly in `ℚ`. -/
def SPEED : List ℚ := [1.0, 1.05, 1.10, 1.15, 1.22, 1.30, 1.40, 1.55, 1.75, 2.15]

/-- `delta = max(1, min(10, int(delta_cm)))` in `SnowfallOverlay.trigger`. -/
def clampDelta (delta_cm : Int) : Int :=
  max 1 (min 10 delta_cm)

/-- Overlay state set by a `trigger` call. -/
structure OverlayTriggerResult where
  density : Int
  speed_mul : ℚ
  running : Bool
deriving DecidableEq

/-- `SnowfallOverlay.trigger(delta_cm)` (`snowfall_overlay.py` lines
120–130): clamp the delta, look up `_DENSITY[delta-1]` and
`_SPEED[delta-1]`, set `running = True`.  Python list indexing raises
`IndexError` when out of range, so the lookups are modelled with `·[·]?`;
`none` models an uncaught index error escaping `trigger`. -/
def trigger (delta_cm : Int) : Option OverlayTriggerResult :=
  let delta := clampDelta delta_cm
  match DENSITY[(delta - 1).toNat]?, SPEED[(delta - 1).toNat]? with
  | some d, some s => some { density := d, speed_mul := s, running := true }
  | _, _ => none

/-!
## Raw touch reader (`XPT2046.read_touch`, `snowgui.py`)
-/

/-- The plausible-ADC-band test in `read_touch`:
`100 < raw_x < 4000 and 100 < raw_y < 4000`. -/
def inBand (p : Int × Int) : Bool :=
  decide (100 < p.1 ∧ p.1 < 4000 ∧ 100 < p.2 ∧ p.2 < 4000)

/-- Maximum of a list of integers, `0` for the empty list (only ever used on
nonempty lists below). -/
def listMax (xs : List Int) : Int :=
  xs.foldl max (xs.headD 0)

/-- Minimum of a list of integers, `0` for the empty list. -/
def listMin (xs : List Int) : Int :=
  xs.foldl min (xs.headD 0)

/-- `XPT2046.read_touch(samples, tolerance)` (`snowgui.py` lines 2373–2389).
`pressed` is the result of `self._pressed()` (fail-open `True` without a
PENIRQ wire); `raws` is the sequence of `(raw_x, raw_y)` pairs produced by
the sampling loop.  Readings outside the plausible ADC band are discarded;
fewer than 3 survivors, or a spread over `tolerance` on either axis, rejects
the batch; otherwise the per-axis floor-divided average is returned. -/
def read_touch (pressed : Bool) (raws : List (Int × Int)) (tolerance : Int) :
    Option (Int × Int) :=
  if !pressed then none
  else
    let readings := raws.filter inBand
    if readings.length < 3 then none
    else
      let xs := readings.map Prod.fst
      let ys := readings.map Prod.snd
      if listMax xs - listMin xs > tolerance ∨ listMax ys - listMin ys > tolerance
      then none
      else some (Int.fdiv xs.sum (xs.length : Int), Int.fdiv ys.sum (ys.length : Int))

/-!
## Helper lemmas
-/

/-- Truncating division (`Int.tdiv`, the embedding of Python `int(p / d)`) is
monotone in the numerator for a positive divisor. -/
lemma tdiv_le_tdiv_right {a b d : Int} (hd : 0 < d) (hab : a ≤ b) :
    a.tdiv d ≤ b.tdiv d := by
  rcases le_or_lt 0 a with ha | ha
  · rw [Int.tdiv_eq_ediv ha hd.le, Int.tdiv_eq_ediv (ha.trans hab) hd.le]
    exact Int.ediv_le_ediv hd hab
  · rcases le_or_lt 0 b with hb | hb
    · have h1 : (-a).tdiv d = -(a.tdiv d) := Int.neg_tdiv a d
      have h2 : 0 ≤ (-a).tdiv d := Int.tdiv_nonneg (by omega) hd.le
      have h3 : 0 ≤ b.tdiv d := Int.tdiv_nonneg hb hd.le
      omega
    · have h1 : (-a).tdiv d = -(a.tdiv d) := Int.neg_tdiv a d
      have h2 : (-b).tdiv d = -(b.tdiv d) := Int.neg_tdiv b d
      have h3 : (-b).tdiv d ≤ (-a).tdiv d := by
        rw [Int.tdiv_eq_ediv (by omega) hd.le, Int.tdiv_eq_ediv (by omega) hd.le]
        exact Int.ediv_le_ediv hd (by omega)
      omega

/-- `ratTrunc` is the identity on integers. -/
lemma ratTrunc_intCast (n : ℤ) : ratTrunc (n : ℚ) = n := by
  simp [ratTrunc]

/-!
## C1 — the presenter never fails observably
-/

/-- C1: for every device state and every frame, `present` returns normally;
when the underlying device write raises, the error is logged and the global
device is swapped for the no-op `_DummyDevice`, otherwise the device is kept
and nothing is logged. -/
theorem present_never_fails_observably (dev : Device) (img : Frame) :
    (present dev img).raised = false ∧
    (present dev img).logged = !(dev.displayOk img) ∧
    (present dev img).device = (if dev.displayOk img then dev else Device.dummy) := by
  unfold present
  by_cases h : dev.displayOk img <;> simp [h]

/-- C1 witness: a hardware device whose write always fails is swapped for the
dummy device, with the failure logged and no exception escaping. -/
theorem present_never_fails_observably_witness :
    (present (Device.hw fun _ => true) 0).raised = false ∧
    (present (Device.hw fun _ => true) 0).logged =
      !((Device.hw fun _ => true).displayOk 0) ∧
    (present (Device.hw fun _ => true) 0).device =
      (if (Device.hw fun _ => true).displayOk 0 then Device.hw fun _ => true
       else Device.dummy) :=
  present_never_fails_observably (Device.hw fun _ => true) 0

/-!
## C2 — `handle_touch` invokes every matching button, not only the first
-/

/-- Two overlapping buttons sharing the rectangle `[0,10] × [0,10]`. -/
def overlapButtons : List Button :=
  [{ x1 := 0, y1 := 0, x2 := 10, y2 := 10, label := 0,
     callbackRaises := false, visible := false },
   { x1 := 0, y1 := 0, x2 := 10, y2 := 10, label := 1,
     callbackRaises := false, visible := false }]

/-- C2 counterexample: both overlapping buttons contain the tap `(5,5)`, and
`handle_touch` invokes *both* of their callbacks (the loop has no `break`),
so it does not invoke only the first match as the claim states. -/
theorem handle_touch_not_first_match_only :
    (overlapButtons.map fun b => b.contains 5 5) = [true, true] ∧
    (handle_touch overlapButtons 5 5).invoked = [0, 1] ∧
    (handle_touch overlapButtons 5 5).invoked ≠ [0] := by
  decide

/-- C2 as amended: `handle_touch` tests the screen's buttons in insertion
order regardless of each button's `visible` flag and invokes *every* button
whose rectangle contains `(x,y)`, in that order; a callback that raises is
caught and logged, the remaining buttons are still processed, and
`handle_touch` itself never raises. -/
theorem handle_touch_amended (buttons : List Button) (x y : Int) :
    (handle_touch buttons x y).invoked
      = ((buttons.filter fun b => b.contains x y).map Button.label) ∧
    (handle_touch buttons x y).loggedFailures
      = (((buttons.filter fun b => b.contains x y).filter
            Button.callbackRaises).map Button.label) ∧
    (handle_touch buttons x y).raised = false ∧
    (∀ v : Bool,
      (handle_touch (buttons.map fun b => { b with visible := v }) x y).invoked
        = (handle_touch buttons x y).invoked) := by
  induction buttons with
  | nil => exact ⟨rfl, rfl, rfl, fun _ => rfl⟩
  | cons b rest ih =>
    obtain ⟨ih1, ih2, ih3, ih4⟩ := ih
    have hvis : ∀ v : Bool, Button.contains { b with visible := v } x y
        = b.contains x y := fun _ => rfl
    by_cases h : b.contains x y
    · refine ⟨?_, ?_, ?_, fun v => ?_⟩
      · simp [handle_touch, h, ih1]
      · by_cases hr : b.callbackRaises <;> simp [handle_touch, h, hr, ih2]
      · simp [handle_touch, h]
      · simp [handle_touch, h, hvis v, ih4 v, ih1]
    · refine ⟨?_, ?_, ?_, fun v => ?_⟩
      · simp [handle_touch, h, ih1]
      · simp [handle_touch, h, ih2]
      · simp [handle_touch, h, ih3]
      · simp [handle_touch, h, hvis v, ih4 v, ih1]

/-!
## C3 — the calibration scenario
-/

/-- The calibration profile of the spec scenarios:
`{x_min:300, x_max:3800, y_min:300, y_max:3700}`. -/
def scenarioProfile : TouchCalibrator :=
  { x_min := 300, x_max := 3800, y_min := 300, y_max := 3700 }

/-- C3: on a 320×240 panel with the scenario profile, the raw point
`(300,300)` maps to the inverted corner `(319,239)`: the scaled offsets are
`0` on both axes, inversion turns them into `width-1` and `height-1`, and
the clamp leaves them unchanged. -/
theorem map_raw_to_screen_scenario :
    map_raw_to_screen scenarioProfile 300 300 = (319, 239) ∧
    Int.tdiv ((300 - scenarioProfile.x_min) * deviceWidth) scenarioProfile.dx = 0 ∧
    Int.tdiv ((300 - scenarioProfile.y_min) * deviceHeight) scenarioProfile.dy = 0 := by
  decide

/-!
## C4 — monotonicity of the calibration map
-/

/-- C4 counterexample: with the (valid) scenario profile, increasing the raw
x from 300 to 301 does *not* strictly decrease the screen x — the 3500-wide
raw span is quantized onto 320 pixels, so both raw values land on screen
x = 319. -/
theorem map_raw_to_screen_not_strictly_monotone :
    scenarioProfile.x_min < scenarioProfile.x_max ∧
    scenarioProfile.y_min < scenarioProfile.y_max ∧
    (300 : Int) < 301 ∧
    (map_raw_to_screen scenarioProfile 301 1000).1
      = (map_raw_to_screen scenarioProfile 300 1000).1 := by
  decide

/-- C4 as amended: for every profile with `x_max > x_min` and
`y_max > y_min`, the map is antitone in raw x (increasing the raw x never
increases the screen x; the decrease need not be strict because of integer
quantization), and the output always lies within
`[0, width-1] × [0, height-1]`. -/
theorem map_raw_to_screen_antitone_and_bounded (c : TouchCalibrator)
    (hx : c.x_min < c.x_max) (hy : c.y_min < c.y_max)
    (x₁ x₂ y : Int) (h : x₁ ≤ x₂) :
    (map_raw_to_screen c x₂ y).1 ≤ (map_raw_to_screen c x₁ y).1 ∧
    0 ≤ (map_raw_to_screen c x₁ y).1 ∧
    (map_raw_to_screen c x₁ y).1 ≤ deviceWidth - 1 ∧
    0 ≤ (map_raw_to_screen c x₁ y).2 ∧
    (map_raw_to_screen c x₁ y).2 ≤ deviceHeight - 1 := by
  have hdx : 0 < c.dx := lt_of_lt_of_le one_pos (le_max_left 1 _)
  have hmul : (x₁ - c.x_min) * deviceWidth ≤ (x₂ - c.x_min) * deviceWidth := by
    unfold deviceWidth
    omega
  have hmono := tdiv_le_tdiv_right hdx hmul
  unfold map_raw_to_screen
  refine ⟨?_, le_max_left 0 _, ?_, le_max_left 0 _, ?_⟩
  · exact max_le_max le_rfl (min_le_min le_rfl (by omega))
  · exact max_le (by unfold deviceWidth; omega) (min_le_left _ _)
  · exact max_le (by unfold deviceHeight; omega) (min_le_left _ _)

/-- C4 amended witness: the scenario profile at raw x 300 ≤ 400. -/
theorem map_raw_to_screen_antitone_and_bounded_witness :
    (map_raw_to_screen scenarioProfile 400 1000).1
      ≤ (map_raw_to_screen scenarioProfile 300 1000).1 ∧
    0 ≤ (map_raw_to_screen scenarioProfile 300 1000).1 ∧
    (map_raw_to_screen scenarioProfile 300 1000).1 ≤ deviceWidth - 1 ∧
    0 ≤ (map_raw_to_screen scenarioProfile 300 1000).2 ∧
    (map_raw_to_screen scenarioProfile 300 1000).2 ≤ deviceHeight - 1 :=
  map_raw_to_screen_antitone_and_bounded scenarioProfile (by decide) (by decide)
    300 400 1000 (by decide)

/-!
## C5 — no division by zero in the calibration map
-/

/-- C5: the spans used as divisors in `map_raw_to_screen` are positive for
*every* calibration state (the `max(1, ·)` guard), and a degenerate profile
(zero or negative span on either axis) is rejected by `load_safe` and
replaced with the full-range defaults `[0,4095]`. -/
theorem map_raw_to_screen_never_divides_by_zero :
    (∀ c : TouchCalibrator, 0 < c.dx ∧ 0 < c.dy) ∧
    (∀ xmin xmax ymin ymax : Int, (xmax ≤ xmin ∨ ymax ≤ ymin) →
      load_safe (.parsed xmin xmax ymin ymax) = (resetDefaults, false)) ∧
    resetDefaults = { x_min := 0, x_max := 4095, y_min := 0, y_max := 4095 } := by
  refine ⟨fun c => ⟨?_, ?_⟩, fun xmin xmax ymin ymax h => ?_, rfl⟩
  · exact lt_of_lt_of_le one_pos (le_max_left 1 _)
  · exact lt_of_lt_of_le one_pos (le_max_left 1 _)
  · simp only [load_safe]
    rw [if_pos h]

/-- C5 witness: the adversarial profile with `x_max == x_min` is rejected at
load time, and the divisors of the default state are positive. -/
theorem map_raw_to_screen_never_divides_by_zero_witness :
    (0 < resetDefaults.dx ∧ 0 < resetDefaults.dy) ∧
    load_safe (.parsed 2000 2000 300 3700) = (resetDefaults, false) :=
  ⟨map_raw_to_screen_never_divides_by_zero.1 resetDefaults,
   map_raw_to_screen_never_divides_by_zero.2.1 2000 2000 300 3700 (Or.inl le_rfl)⟩

/-!
## C6 — the calibration save is not atomic
-/

/-- C6 counterexample: during a save of the scenario profile over a file
holding the default profile, the truncated state (the empty file) is an
observable on-disk state that is neither the complete previous profile nor
the complete new one — so "after any save the file holds either the complete
new profile or the complete previous profile" is false for an interrupted
save: the code opens the target file with mode `"w"` and writes into it
directly, with no temp file and no rename. -/
theorem save_truncated_state_is_partial :
    [] ∈ save_states (serialize resetDefaults) scenarioProfile ∧
    ([] : List Int) ≠ serialize resetDefaults ∧
    ([] : List Int) ≠ serialize scenarioProfile := by
  decide

/-- C6 as amended: every persist of a calibration profile overwrites the
calibration file in place — `open(path, "w")` truncates it, then the JSON
body is written — so a *completed* save leaves exactly the new profile on
disk, but the write is not temp-then-replace atomic: an interrupted save
can leave behind the truncated (empty, hence incomplete) file. -/
theorem save_overwrites_in_place (old : List Int) (c : TouchCalibrator) :
    (save_states old c).head? = some old ∧
    (save_states old c).getLast? = some (serialize c) ∧
    [] ∈ save_states old c ∧
    serialize c ≠ [] := by
  refine ⟨rfl, rfl, ?_, by simp [serialize]⟩
  simp [save_states]

/-- C6 amended witness: saving the scenario profile over the default one. -/
theorem save_overwrites_in_place_witness :
    (save_states (serialize resetDefaults) scenarioProfile).head?
      = some (serialize resetDefaults) ∧
    (save_states (serialize resetDefaults) scenarioProfile).getLast?
      = some (serialize scenarioProfile) ∧
    [] ∈ save_states (serialize resetDefaults) scenarioProfile ∧
    serialize scenarioProfile ≠ [] :=
  save_overwrites_in_place (serialize resetDefaults) scenarioProfile

/-!
## C7 — LED state for `set_snow_value(22, 18)`
-/

/-- The bright-red anchor is the color of the clamp cap. -/
lemma color_for_cm_twenty : color_for_cm 20 = (255, 0, 0) := by
  rw [color_for_cm]
  norm_num [lerp_rgb, max_def, min_def, ratTrunc]

/-- The base color set by `set_snow_value` is the color of the clamped value
when the raw value is positive, and black otherwise. -/
lemma set_snow_value_base_color (now prev : Int) :
    (set_snow_value now prev).base_color
      = (if 0 < now then color_for_cm (max 0 (min 20 now)) else (0, 0, 0)) := by
  simp only [set_snow_value]
  split_ifs <;> rfl

/-- C7: `set_snow_value 22 18` activates sparkle (22 > 20) and breathing
(raw change 18 → 22), and its base color is the bright-red anchor
`(255,0,0)`, the color of the clamped value 20; in general the sparkle
threshold, change detection and the breathing period use the raw unclamped
values (e.g. 25 vs 22 still breathes although both clamp to 20), while only
the color mapping clamps, so any raw value ≥ 20 gets the cap color. -/
theorem set_snow_value_scenario :
    (set_snow_value 22 18).sparkle = true ∧
    (set_snow_value 22 18).breathing = true ∧
    (set_snow_value 22 18).base_color = (255, 0, 0) ∧
    color_for_cm 20 = (255, 0, 0) ∧
    max 0 (min 20 (22 : Int)) = 20 ∧
    (set_snow_value 22 18).breath_period = breath_period_for_delta 4 ∧
    ((set_snow_value 25 22).breathing = true ∧
      max 0 (min 20 (25 : Int)) = max 0 (min 20 (22 : Int))) ∧
    (∀ now prev : Int, (set_snow_value now prev).sparkle = decide (20 < now)) ∧
    (∀ now prev : Int,
      (set_snow_value now prev).breathing
        = (decide (0 < now) && decide (now ≠ prev))) ∧
    (∀ now prev : Int, 20 ≤ now →
      (set_snow_value now prev).base_color = color_for_cm 20) := by
  refine ⟨by decide, by decide, ?_, color_for_cm_twenty, by decide, ?_,
    ⟨by decide, by decide⟩, ?_, ?_, ?_⟩
  · rw [set_snow_value_base_color]
    norm_num [color_for_cm_twenty]
  · norm_num [set_snow_value]
  · intro now prev
    simp only [set_snow_value]
    split_ifs <;> rfl
  · intro now prev
    simp only [set_snow_value]
    split_ifs <;> simp_all <;> omega
  · intro now prev h
    rw [set_snow_value_base_color, if_pos (by omega)]
    congr 1
    omega

/-- C7 witness: a raw value of 35 (past the cap) still gets the cap color. -/
theorem set_snow_value_scenario_witness :
    (set_snow_value 35 10).base_color = color_for_cm 20 :=
  set_snow_value_scenario.2.2.2.2.2.2.2.2.2 35 10 (by norm_num)

/-!
## C8 and C10 — the overlay trigger
-/

/-- `trigger` only ever sees the clamped delta: clamping is idempotent. -/
lemma trigger_eq_trigger_clampDelta (d : Int) :
    trigger d = trigger (clampDelta d) := by
  unfold trigger
  have h : clampDelta (clampDelta d) = clampDelta d := by
    unfold clampDelta
    omega
  rw [h]

/-- The clamped delta always lies in `[1, 10]`. -/
lemma clampDelta_mem (d : Int) : 1 ≤ clampDelta d ∧ clampDelta d ≤ 10 := by
  unfold clampDelta
  omega

/-- Every trigger call succeeds: the clamped index is inside both tables. -/
lemma trigger_isSome (d : Int) : (trigger d).isSome = true := by
  rw [trigger_eq_trigger_clampDelta]
  obtain ⟨h1, h2⟩ := clampDelta_mem d
  set k := clampDelta d with hk
  interval_cases k <;> rfl

/-- Every trigger call sets `running := True`. -/
lemma trigger_running (d : Int) :
    ((trigger d).all fun r => r.running) = true := by
  rw [trigger_eq_trigger_clampDelta]
  obtain ⟨h1, h2⟩ := clampDelta_mem d
  set k := clampDelta d with hk
  interval_cases k <;> rfl

/-- C8: `trigger` clamps the delta into `[1,10]` and reads the two fixed
tables (density running 20→165 and speed 1.0→2.15, both non-decreasing),
then sets `running` true; in particular `trigger 7` picks index 6 of the
0-based tables — density 130 and speed multiplier 1.40. -/
theorem overlay_trigger_scenario :
    trigger 7 = some { density := 130, speed_mul := 1.40, running := true } ∧
    List.Sorted (· ≤ ·) DENSITY ∧
    List.Sorted (· ≤ ·) SPEED ∧
    (DENSITY.head? = some 20 ∧ DENSITY.getLast? = some 165) ∧
    (SPEED.head? = some 1.0 ∧ SPEED.getLast? = some 2.15) ∧
    (∀ d : Int, trigger d = trigger (clampDelta d)) ∧
    (∀ d : Int, 1 ≤ clampDelta d ∧ clampDelta d ≤ 10) ∧
    (∀ d : Int, ((trigger d).all fun r => r.running) = true) := by
  refine ⟨rfl, by decide, ?_, ⟨rfl, rfl⟩, ⟨rfl, rfl⟩,
    trigger_eq_trigger_clampDelta, clampDelta_mem, trigger_running⟩
  simp [SPEED, List.sorted_cons]
  norm_num

/-- C10: `trigger` is total for every integer delta: the clamp precedes the
table lookup, so the lookup never goes out of range, and a non-positive
delta still starts the animation at minimum density 20 and speed 1.0. -/
theorem overlay_trigger_total :
    (∀ d : Int, (trigger d).isSome = true) ∧
    trigger 0 = some { density := 20, speed_mul := 1.0, running := true } ∧
    trigger (-5) = some { density := 20, speed_mul := 1.0, running := true } ∧
    (∀ d : Int, d ≤ 0 →
      trigger d = some { density := 20, speed_mul := 1.0, running := true }) := by
  refine ⟨trigger_isSome, rfl, rfl, fun d hd => ?_⟩
  rw [trigger_eq_trigger_clampDelta]
  have h : clampDelta d = 1 := by
    unfold clampDelta
    omega
  rw [h]
  rfl

/-- C10 witness: a negative delta still triggers the minimum animation. -/
theorem overlay_trigger_total_witness :
    trigger (-3) = some { density := 20, speed_mul := 1.0, running := true } :=
  overlay_trigger_total.2.2.2 (-3) (by norm_num)

/-!
## C9 — the raw touch reader
-/

/-- The spec scenario batch of raw samples. -/
def scenarioBatch : List (Int × Int) :=
  [(512, 512), (515, 510), (509, 515), (3800, 3800)]

/-- Averaging three identical in-band samples returns that sample. -/
lemma fdiv_three_same (a : Int) : Int.fdiv (a + (a + (a + 0))) 3 = a := by
  have h : a + (a + (a + 0)) = 3 * a := by ring
  rw [h, Int.mul_fdiv_cancel_left]
  norm_num

/-- C9: the scenario batch `[(512,512),(515,510),(509,515),(3800,3800)]`
with tolerance 50 is rejected (every sample is inside the plausible ADC
band, but the x spread is 3291 > 50), so the reader returns "no touch";
in general out-of-band readings are discarded before any other check,
fewer than 3 survivors reject the batch, an unpressed pen shorts out the
read, and a stable batch returns the per-axis average. -/
theorem read_touch_spec :
    read_touch true scenarioBatch 50 = none ∧
    scenarioBatch.filter inBand = scenarioBatch ∧
    listMax (scenarioBatch.map Prod.fst) - listMin (scenarioBatch.map Prod.fst)
      = 3291 ∧
    (∀ raws : List (Int × Int), ∀ tol : Int, read_touch false raws tol = none) ∧
    (∀ pressed : Bool, ∀ raws : List (Int × Int), ∀ tol : Int,
      read_touch pressed (raws.filter inBand) tol = read_touch pressed raws tol) ∧
    (∀ pressed : Bool, ∀ raws : List (Int × Int), ∀ tol : Int,
      (raws.filter inBand).length < 3 → read_touch pressed raws tol = none) ∧
    (∀ p : Int × Int, ∀ tol : Int, inBand p = true → 0 ≤ tol →
      read_touch true [p, p, p] tol = some p) := by
  refine ⟨by decide, by decide, by decide, fun raws tol => rfl, ?_, ?_, ?_⟩
  · intro pressed raws tol
    simp only [read_touch, List.filter_filter, Bool.and_self]
  · intro pressed raws tol h
    cases pressed
    · rfl
    · simp [read_touch, h]
  · intro p tol hp htol
    have hfilter : ([p, p, p] : List (Int × Int)).filter inBand = [p, p, p] := by
      simp [hp]
    simp only [read_touch, hfilter, Bool.not_true, List.length_cons,
      List.length_nil, List.map_cons, List.map_nil, listMax, listMin,
      List.headD, List.foldl, max_self, min_self, List.sum_cons, List.sum_nil]
    rw [if_neg (by norm_num), if_neg (by omega), if_neg (by omega)]
    have hlen : ((0 + 1 + 1 + 1 : Nat) : Int) = 3 := by norm_num
    rw [hlen, fdiv_three_same, fdiv_three_same]

/-- C9 witness: a stable in-band batch at `(512, 512)` with tolerance 50 is
accepted and averaged to itself, and a batch with only two in-band samples
is rejected. -/
theorem read_touch_spec_witness :
    read_touch true [(512, 512), (512, 512), (512, 512)] 50 = some (512, 512) ∧
    read_touch true [(512, 512), (512, 512), (4050, 4050)] 50 = none :=
  ⟨read_touch_spec.2.2.2.2.2.2 (512, 512) 50 (by decide) (by decide),
   read_touch_spec.2.2.2.2.2.1 true [(512, 512), (512, 512), (4050, 4050)] 50
     (by decide)⟩

end SnowScraper
